import Mathlib

/-!
# Verification of the wyre client data-binding layer

A shallow embedding of the SRN (System Resource Name) codec, the currency
fallback decoding, the profile-field / user-field JSON value models, and the
query-parameter construction of the client operations, translated from the
Rust sources (`common.rs`, `account.rs`, `user.rs`, `lib.rs`), together with
theorems settling the specification claims about them.
-/

namespace Wyre

instance {ε α : Type} [DecidableEq ε] [DecidableEq α] :
    DecidableEq (Except ε α) := fun
  | .ok a, .ok b => decidable_of_iff (a = b) (by simp)
  | .ok _, .error _ => .isFalse (by simp)
  | .error _, .ok _ => .isFalse (by simp)
  | .error e, .error f => decidable_of_iff (e = f) (by simp)

/-! ## Character-level split, the semantics of Rust's str::split(':')

Rust's `split` on a pattern always yields at least one (possibly empty)
segment; in particular `"".split(':')` yields one empty segment. -/

/-- Splits a character list on the colon character, mirroring the semantics of
Rust's `str::split(':')`: the empty input yields one empty segment, and a
trailing colon yields a trailing empty segment. -/
def splitColon : List Char → List (List Char)
  | [] => [[]]
  | c :: cs =>
    if c = ':' then [] :: splitColon cs
    else
      match splitColon cs with
      | [] => [[c]]
      | seg :: rest => (c :: seg) :: rest

theorem splitColon_ne_nil (cs : List Char) : splitColon cs ≠ [] := by
  induction cs with
  | nil => simp [splitColon]
  | cons c cs ih =>
    by_cases h : c = ':'
    · simp [splitColon, h]
    · simp only [splitColon, if_neg h]
      cases hs : splitColon cs <;> simp

theorem splitColon_no_colon (cs : List Char) (h : ':' ∉ cs) :
    splitColon cs = [cs] := by
  induction cs with
  | nil => rfl
  | cons c cs ih =>
    have hc : c ≠ ':' := fun hc => h (hc ▸ List.mem_cons_self c cs)
    have hcs : ':' ∉ cs := fun hm => h (List.mem_cons_of_mem c hm)
    simp [splitColon, if_neg hc, ih hcs]

theorem splitColon_append (xs ys : List Char) (h : ':' ∉ xs) :
    splitColon (xs ++ ':' :: ys) = xs :: splitColon ys := by
  induction xs with
  | nil => simp [splitColon]
  | cons x xs ih =>
    have hx : x ≠ ':' := fun hx => h (hx ▸ List.mem_cons_self x xs)
    have hxs : ':' ∉ xs := fun hm => h (List.mem_cons_of_mem x hm)
    simp [splitColon, if_neg hx, ih hxs]

/-! ## The SystemResourceName type and its textual codec (common.rs) -/

/-- System Resource Name: a typed identifier `type:identifier(:ach)` over the
sixteen reference kinds of `common.rs`. -/
inductive SystemResourceName
  | Account (identifier : String)
  | User (identifier : String)
  | Wallet (identifier : String)
  | Transfer (identifier : String)
  | PaymentMethod (identifier : String)
  | AchPaymentMethod (identifier : String)
  | Email (identifier : String)
  | CellPhone (identifier : String)
  | Bitcoin (identifier : String)
  | Ethereum (identifier : String)
  | Avalanche (identifier : String)
  | Stellar (identifier : String)
  | Algorand (identifier : String)
  | Matic (identifier : String)
  | Flow (identifier : String)
  | Loopring (identifier : String)
deriving DecidableEq, Repr

/-- Formats an SRN, translated from `impl ToString for SystemResourceName`. -/
def SystemResourceName.toString : SystemResourceName → String
  | .PaymentMethod identifier => "paymentmethod:" ++ identifier
  | .AchPaymentMethod identifier => "paymentmethod:" ++ identifier ++ ":ach"
  | .Email identifier => "email:" ++ identifier
  | .CellPhone identifier => "cellphone:" ++ identifier
  | .Bitcoin identifier => "bitcoin:" ++ identifier
  | .Ethereum identifier => "ethereum:" ++ identifier
  | .Avalanche identifier => "avalanche:" ++ identifier
  | .Stellar identifier => "stellar:" ++ identifier
  | .Algorand identifier => "algorand:" ++ identifier
  | .Matic identifier => "matic:" ++ identifier
  | .Flow identifier => "flow:" ++ identifier
  | .Loopring identifier => "loopring:" ++ identifier
  | .Account identifier => "account:" ++ identifier
  | .User identifier => "user:" ++ identifier
  | .Wallet identifier => "wallet:" ++ identifier
  | .Transfer identifier => "transfer:" ++ identifier

/-- The identifier string wrapped by an SRN variant (a projection used to state
the colon-free side conditions). -/
def SystemResourceName.ident : SystemResourceName → String
  | .PaymentMethod identifier => identifier
  | .AchPaymentMethod identifier => identifier
  | .Email identifier => identifier
  | .CellPhone identifier => identifier
  | .Bitcoin identifier => identifier
  | .Ethereum identifier => identifier
  | .Avalanche identifier => identifier
  | .Stellar identifier => identifier
  | .Algorand identifier => identifier
  | .Matic identifier => identifier
  | .Flow identifier => identifier
  | .Loopring identifier => identifier
  | .Account identifier => identifier
  | .User identifier => identifier
  | .Wallet identifier => identifier
  | .Transfer identifier => identifier

/-- The two serde error constructions used by `SrnVisitor::visit_str`:
`E::unknown_variant(v, &[...])` and `E::custom(format!(...))`. -/
inductive SrnError
  | unknownVariant (variant : String) (expected : List String)
  | custom (msg : String)
deriving DecidableEq, Repr

/-- The expected-variants list passed to `E::unknown_variant` in
`SrnVisitor::visit_str`. -/
def srnExpectedTags : List String :=
  ["paymentmethod:{id}", "paymentmethod:{id}:ach", "email:{id}",
   "cellphone:{id}", "bitcoin:{id}", "ethereum:{id}", "avalanche:{id}",
   "stellar:{id}", "algorand:{id}", "matic:{id}", "flow:{id}",
   "loopring:{id}", "account:{id}", "user:{id}", "wallet:{id}",
   "transfer:{id}"]

/-- The match of `SrnVisitor::visit_str` on the first three segments produced
by `v.split(':')` (`kind`, `ident`, `extra`); arms are in source order, with
the no-suffix arms and the `ach`-suffix arm grouped by the shape of the
option triple. -/
def srnFromParts (v : String) (parts : List (List Char)) :
    Except SrnError SystemResourceName :=
  match parts.head?, parts.get? 1, parts.get? 2 with
  | some kind, some identifier, none =>
    if kind = "paymentmethod".data then
      .ok (.PaymentMethod (String.mk identifier))
    else if kind = "email".data then .ok (.Email (String.mk identifier))
    else if kind = "cellphone".data then .ok (.CellPhone (String.mk identifier))
    else if kind = "bitcoin".data then .ok (.Bitcoin (String.mk identifier))
    else if kind = "ethereum".data then .ok (.Ethereum (String.mk identifier))
    else if kind = "avalanche".data then .ok (.Avalanche (String.mk identifier))
    else if kind = "stellar".data then .ok (.Stellar (String.mk identifier))
    else if kind = "algorand".data then .ok (.Algorand (String.mk identifier))
    else if kind = "matic".data then .ok (.Matic (String.mk identifier))
    else if kind = "flow".data then .ok (.Flow (String.mk identifier))
    else if kind = "loopring".data then .ok (.Loopring (String.mk identifier))
    else if kind = "account".data then .ok (.Account (String.mk identifier))
    else if kind = "user".data then .ok (.User (String.mk identifier))
    else if kind = "wallet".data then .ok (.Wallet (String.mk identifier))
    else if kind = "transfer".data then .ok (.Transfer (String.mk identifier))
    else .error (.unknownVariant v srnExpectedTags)
  | some kind, some identifier, some extra =>
    if kind = "paymentmethod".data ∧ extra = "ach".data then
      .ok (.AchPaymentMethod (String.mk identifier))
    else .error (.unknownVariant v srnExpectedTags)
  | some _, none, _ => .error (.unknownVariant v srnExpectedTags)
  | none, _, _ => .error (.custom ("srn is missing 'type': " ++ v))

/-- Parses an SRN from its textual form, translated from
`SrnVisitor::visit_str`: split on colons, take the first three segments as
`(kind, ident, extra)`, and match. -/
def parseSrn (v : String) : Except SrnError SystemResourceName :=
  srnFromParts v (splitColon v.data)

example : parseSrn "paymentmethod:PA_ABC123" =
    .ok (.PaymentMethod "PA_ABC123") := by decide
example : parseSrn "paymentmethod:PA_ABC123:ach" =
    .ok (.AchPaymentMethod "PA_ABC123") := by decide
example : parseSrn "" = .error (.unknownVariant "" srnExpectedTags) := by decide
example : parseSrn "noColonHere" =
    .error (.unknownVariant "noColonHere" srnExpectedTags) := by decide
example : parseSrn "bogus:xyz" =
    .error (.unknownVariant "bogus:xyz" srnExpectedTags) := by decide
example : parseSrn "stellar:GD7:LEMNM383ACX" =
    .error (.unknownVariant "stellar:GD7:LEMNM383ACX" srnExpectedTags) := by
  decide
example : parseSrn "paymentmethod:PA_1:ach:extra" =
    .ok (.AchPaymentMethod "PA_1") := by decide

/-! ## Currency (common.rs): a closed enumeration plus an `Other` catch-all

The Rust enum derives `Deserialize` with four `#[serde(rename = ...)]`
attributes and a final `#[serde(other)] Other` variant, so deserializing a
token means looking it up among the named tokens and falling back to `Other`.
-/

/-- The `Currency` enumeration of `common.rs`, in source order. -/
inductive Currency
  | USD | EUR | GBP | AUD | CAD | NZD | ARS | BRL | CHF | CLP | COP | CZK
  | DKK | HKD | ILS | INR | ISK | JPY | KRW | MXN | MYR | NOK | PHP | PLN
  | SEK | SGD | THB | VND | ZAR
  | BTC | ETH | XLM | SUSDC | AVAX | DAI | PDAI | USDC | MUSDC | LBTC
  | USDT | BUSD | GUSD | PAX | USDS | AAVE | COMP | LINK | WBTC | BAT
  | CRV | MKR | SNX | UMA | UNI | YFI | GYEN | ZUSD | MATIC
  | Other
deriving DecidableEq, Repr

/-- The wire token of each named `Currency` variant: the variant name, except
for the four `#[serde(rename = ...)]` overrides (`sUSDC`, `pDAI`, `mUSDC`,
`L-BTC`). The final `Other` variant is `#[serde(other)]` and has no token. -/
def currencyTokenTable : List (String × Currency) :=
  [("USD", .USD), ("EUR", .EUR), ("GBP", .GBP), ("AUD", .AUD), ("CAD", .CAD),
   ("NZD", .NZD), ("ARS", .ARS), ("BRL", .BRL), ("CHF", .CHF), ("CLP", .CLP),
   ("COP", .COP), ("CZK", .CZK), ("DKK", .DKK), ("HKD", .HKD), ("ILS", .ILS),
   ("INR", .INR), ("ISK", .ISK), ("JPY", .JPY), ("KRW", .KRW), ("MXN", .MXN),
   ("MYR", .MYR), ("NOK", .NOK), ("PHP", .PHP), ("PLN", .PLN), ("SEK", .SEK),
   ("SGD", .SGD), ("THB", .THB), ("VND", .VND), ("ZAR", .ZAR), ("BTC", .BTC),
   ("ETH", .ETH), ("XLM", .XLM), ("sUSDC", .SUSDC), ("AVAX", .AVAX),
   ("DAI", .DAI), ("pDAI", .PDAI), ("USDC", .USDC), ("mUSDC", .MUSDC),
   ("L-BTC", .LBTC), ("USDT", .USDT), ("BUSD", .BUSD), ("GUSD", .GUSD),
   ("PAX", .PAX), ("USDS", .USDS), ("AAVE", .AAVE), ("COMP", .COMP),
   ("LINK", .LINK), ("WBTC", .WBTC), ("BAT", .BAT), ("CRV", .CRV),
   ("MKR", .MKR), ("SNX", .SNX), ("UMA", .UMA), ("UNI", .UNI), ("YFI", .YFI),
   ("GYEN", .GYEN), ("ZUSD", .ZUSD), ("MATIC", .MATIC)]

/-- Decodes a currency token: the named variant whose token matches, else the
`#[serde(other)]` fallback `Other`. -/
def currencyFromToken (s : String) : Currency :=
  ((currencyTokenTable.find? (fun p => p.1 = s)).map (fun p => p.2)).getD .Other

example : currencyFromToken "USD" = .USD := by decide
example : currencyFromToken "sUSDC" = .SUSDC := by decide
example : currencyFromToken "XYZ" = .Other := by decide

/-! ## A JSON value model for the serde-derived decoders -/

/-- JSON values (numbers modelled as integers; the claims under study only
need a non-string, non-null scalar to exercise type mismatches). -/
inductive Json
  | null
  | bool (b : Bool)
  | num (n : Int)
  | str (s : String)
  | arr (elements : List Json)
  | obj (fields : List (String × Json))

/-- Looks a key up in a JSON object's field list (first occurrence). -/
def lookupField (fields : List (String × Json)) (key : String) : Option Json :=
  (fields.find? (fun p => p.1 = key)).map (fun p => p.2)

/-- Decoding of `Option<String>`: JSON null is `None`, a JSON string is
`Some`, anything else is a type error. -/
def decodeOptString : Json → Option (Option String)
  | .null => some none
  | .str s => some (some s)
  | _ => none

/-- The `Address` struct of `common.rs`: six optional camelCase string
fields. -/
structure Address where
  street1 : Option String
  street2 : Option String
  city : Option String
  state : Option String
  postal_code : Option String
  country : Option String
deriving DecidableEq, Repr

/-- Field-by-field decoding of the `Address` struct from a JSON object's
entries, mirroring serde's derived map visitor: entries are consumed in
order, an already-seen known field is a duplicate-field error, a known field
must be a string or null, unknown fields are ignored, and missing `Option`
fields default to `None`. Each accumulator is `none` until its field has been
seen. -/
def decodeAddressFields :
    List (String × Json) → Option (Option String) → Option (Option String) →
    Option (Option String) → Option (Option String) → Option (Option String) →
    Option (Option String) → Option Address
  | [], s1, s2, ci, st, pc, co =>
    some ⟨s1.getD none, s2.getD none, ci.getD none,
          st.getD none, pc.getD none, co.getD none⟩
  | (k, v) :: rest, s1, s2, ci, st, pc, co =>
    if k = "street1" then
      match s1 with
      | some _ => none
      | none => (decodeOptString v).bind fun x =>
          decodeAddressFields rest (some x) s2 ci st pc co
    else if k = "street2" then
      match s2 with
      | some _ => none
      | none => (decodeOptString v).bind fun x =>
          decodeAddressFields rest s1 (some x) ci st pc co
    else if k = "city" then
      match ci with
      | some _ => none
      | none => (decodeOptString v).bind fun x =>
          decodeAddressFields rest s1 s2 (some x) st pc co
    else if k = "state" then
      match st with
      | some _ => none
      | none => (decodeOptString v).bind fun x =>
          decodeAddressFields rest s1 s2 ci (some x) pc co
    else if k = "postalCode" then
      match pc with
      | some _ => none
      | none => (decodeOptString v).bind fun x =>
          decodeAddressFields rest s1 s2 ci st (some x) co
    else if k = "country" then
      match co with
      | some _ => none
      | none => (decodeOptString v).bind fun x =>
          decodeAddressFields rest s1 s2 ci st pc (some x)
    else decodeAddressFields rest s1 s2 ci st pc co

/-- Decodes an `Address`: only a JSON object is accepted. -/
def decodeAddress : Json → Option Address
  | .obj fields => decodeAddressFields fields none none none none none none
  | _ => none

/-- Decoding of `Option<Address>`: JSON null is `None`, otherwise the value
must decode as an `Address`. -/
def decodeOptAddress (j : Json) : Option (Option Address) :=
  match j with
  | .null => some none
  | _ => (decodeAddress j).map some

/-- The `UserFieldType` untagged union of `user.rs` (variants in declaration
order: `String(Option<String>)`, then `Address(Option<Address>)`). -/
inductive UserFieldType
  | string (v : Option String)
  | address (v : Option Address)
deriving DecidableEq, Repr

/-- Decoding of `UserFieldType`, mirroring `#[serde(untagged)]`: the variants
are tried in declaration order and the first that matches the JSON shape is
accepted — `String(Option<String>)` first, then `Address(Option<Address>)`. -/
def decodeUserFieldType (j : Json) : Option UserFieldType :=
  match decodeOptString j with
  | some v => some (.string v)
  | none => (decodeOptAddress j).map .address

example : decodeUserFieldType (.str "John") = some (.string (some "John")) := by
  decide
example :
    decodeUserFieldType
      (.obj [("street1", .str "123 Sesame St"), ("city", .str "New York City")])
    = some (.address (some ⟨some "123 Sesame St", none, some "New York City",
        none, none, none⟩)) := by decide
example : decodeUserFieldType (.obj [("street1", .num 5)]) = none := by decide
example : decodeUserFieldType .null = some (.string none) := by decide

/-! ## ProfileFieldType (account.rs): an adjacently tagged union

The Rust enum uses `#[serde(rename_all = "SCREAMING_SNAKE_CASE",
tag = "fieldType", content = "value")]`: the wire form is a JSON object with
a `fieldType` discriminator token and a `value` payload whose shape depends
on the discriminator. -/

/-- The `ProfileFieldType` tagged union of `account.rs`, variants in source
order. -/
inductive ProfileFieldType
  | string (v : Option String)
  | cellphone (v : Option String)
  | email (v : Option String)
  | address (v : Option Address)
  | date (v : Option String)
  | document (v : List String)
  | paymentMethod (v : Option String)
deriving DecidableEq, Repr

/-- The seven `fieldType` discriminator tokens, upper-snake-cased from the
variant names per `rename_all = "SCREAMING_SNAKE_CASE"`. -/
def profileFieldTypeTags : List String :=
  ["STRING", "CELLPHONE", "EMAIL", "ADDRESS", "DATE", "DOCUMENT",
   "PAYMENT_METHOD"]

/-- Errors produced while decoding a `ProfileFieldType` wire object. -/
inductive DecodeError
  | unknownVariant (got : String) (expected : List String)
  | missingField (name : String)
  | invalidType (context : String)
deriving DecidableEq, Repr

/-- Decoding of `Vec<String>`: a JSON array whose elements are all strings. -/
def decodeStringList : Json → Option (List String)
  | .arr elements =>
    elements.foldr
      (fun j acc =>
        match j, acc with
        | .str s, some ss => some (s :: ss)
        | _, _ => none)
      (some [])
  | _ => none

/-- Decodes a `ProfileFieldType` from its adjacently tagged wire object: read
the `fieldType` discriminator, reject an unrecognized token as an
unknown-variant error, then decode the `value` payload in the shape demanded
by the discriminator. -/
def decodeProfileFieldType (j : Json) : Except DecodeError ProfileFieldType :=
  match j with
  | .obj fields =>
    match lookupField fields "fieldType" with
    | none => .error (.missingField "fieldType")
    | some (.str tag) =>
      if tag ∈ profileFieldTypeTags then
        match lookupField fields "value" with
        | none => .error (.missingField "value")
        | some v =>
          if tag = "STRING" then
            match decodeOptString v with
            | some x => .ok (.string x)
            | none => .error (.invalidType "value")
          else if tag = "CELLPHONE" then
            match decodeOptString v with
            | some x => .ok (.cellphone x)
            | none => .error (.invalidType "value")
          else if tag = "EMAIL" then
            match decodeOptString v with
            | some x => .ok (.email x)
            | none => .error (.invalidType "value")
          else if tag = "ADDRESS" then
            match decodeOptAddress v with
            | some x => .ok (.address x)
            | none => .error (.invalidType "value")
          else if tag = "DATE" then
            match decodeOptString v with
            | some x => .ok (.date x)
            | none => .error (.invalidType "value")
          else if tag = "DOCUMENT" then
            match decodeStringList v with
            | some x => .ok (.document x)
            | none => .error (.invalidType "value")
          else
            match decodeOptString v with
            | some x => .ok (.paymentMethod x)
            | none => .error (.invalidType "value")
      else .error (.unknownVariant tag profileFieldTypeTags)
    | some _ => .error (.invalidType "fieldType")
  | _ => .error (.invalidType "expected an object")

example :
    decodeProfileFieldType (.obj [("fieldType", .str "ADDRESS"),
      ("value", .null)]) = .ok (.address none) := by decide
example :
    decodeProfileFieldType (.obj [("fieldType", .str "BOGUS"),
      ("value", .null)])
    = .error (.unknownVariant "BOGUS" profileFieldTypeTags) := by decide
example :
    decodeProfileFieldType (.obj [("fieldType", .str "DOCUMENT"),
      ("value", .arr [.str "DOC_1"])]) = .ok (.document ["DOC_1"]) := by decide

/-! ## Client operation query parameters (lib.rs)

Every sub-account-scoped operation attaches a masquerade query parameter.
All operations except `upload_document` build it as the literal pair list
`[("masqueradeAs", masquerade.map(to_string).unwrap_or_else(String::new))]`
(possibly alongside other pairs); `upload_document` instead serializes a
struct whose `masquerade_as` field is `Option<String>` with no default, and
the urlencoded serializer omits a `None` field, so the parameter is dropped
entirely when no masquerade is given. -/

/-- The masquerade parameter value used by the tuple-style query builders:
`masquerade.map(|srn| srn.to_string()).unwrap_or_else(String::new)`. -/
def masqueradeParam (m : Option SystemResourceName) : String :=
  (m.map SystemResourceName.toString).getD ""

/-- Query pairs of `Client::get_account`. -/
def getAccountQuery (m : Option SystemResourceName) : List (String × String) :=
  [("masqueradeAs", masqueradeParam m)]

/-- Query pairs of `Client::update_account`. -/
def updateAccountQuery (m : Option SystemResourceName) :
    List (String × String) :=
  [("masqueradeAs", masqueradeParam m)]

/-- Query pairs of `Client::create_ach_payment_method`. -/
def createAchPaymentMethodQuery (m : Option SystemResourceName) :
    List (String × String) :=
  [("masqueradeAs", masqueradeParam m)]

/-- Query pairs of `Client::get_payment_methods` (offset and limit are
stringified `usize` values). -/
def getPaymentMethodsQuery (m : Option SystemResourceName)
    (offset limit : Nat) : List (String × String) :=
  [("offset", ToString.toString offset), ("limit", ToString.toString limit),
   ("masqueradeAs", masqueradeParam m)]

/-- Query pairs of `Client::create_transfer`. -/
def createTransferQuery (m : Option SystemResourceName) :
    List (String × String) :=
  [("masqueradeAs", masqueradeParam m)]

/-- Query pairs of `Client::get_transfer`. -/
def getTransferQuery (m : Option SystemResourceName) :
    List (String × String) :=
  [("masqueradeAs", masqueradeParam m)]

/-- The `UserScope` enumeration of `user.rs` and its `ToString` tokens. -/
inductive UserScope
  | Transfer
  | ACH
  | DebitCardL2
deriving DecidableEq, Repr

/-- Wire token of a `UserScope`, from `impl ToString for UserScope`. -/
def UserScope.toWire : UserScope → String
  | .Transfer => "TRANSFER"
  | .ACH => "ACH"
  | .DebitCardL2 => "DEBIT_CARD_L2"

/-- Query pairs of `Client::get_user`. -/
def getUserQuery (m : Option SystemResourceName) (scope : UserScope) :
    List (String × String) :=
  [("masqueradeAs", masqueradeParam m), ("scopes", scope.toWire)]

/-- Query pairs of `Client::update_user`. -/
def updateUserQuery (m : Option SystemResourceName) :
    List (String × String) :=
  [("masqueradeAs", masqueradeParam m)]

/-- The `DocumentType` enumeration of `common.rs` with its
SCREAMING_SNAKE_CASE wire tokens. -/
inductive DocumentType
  | GovtId
  | DrivingLicense
  | PassportCard
  | Passport
deriving DecidableEq, Repr

/-- Wire token of a `DocumentType` under `rename_all =
"SCREAMING_SNAKE_CASE"`. -/
def DocumentType.toWire : DocumentType → String
  | .GovtId => "GOVT_ID"
  | .DrivingLicense => "DRIVING_LICENSE"
  | .PassportCard => "PASSPORT_CARD"
  | .Passport => "PASSPORT"

/-- The `DocumentSubType` enumeration of `account.rs`. -/
inductive DocumentSubType
  | Front
  | Back
deriving DecidableEq, Repr

/-- Wire token of a `DocumentSubType`. -/
def DocumentSubType.toWire : DocumentSubType → String
  | .Front => "FRONT"
  | .Back => "BACK"

/-- Query pairs of `Client::upload_document`, the urlencoded serialization of
its `UploadDocumentQueryParams` struct in field order: `document_type` and
`document_sub_type` carry `skip_serializing_if = "Option::is_none"`, and the
`masquerade_as` field is `Option<String>` whose `None` is likewise omitted by
the urlencoded pair serializer. -/
def uploadDocumentQuery (dt : Option DocumentType)
    (dst : Option DocumentSubType) (m : Option SystemResourceName) :
    List (String × String) :=
  ((dt.map (fun d => ("documentType", d.toWire))).toList) ++
  ((dst.map (fun d => ("documentSubType", d.toWire))).toList) ++
  ((m.map (fun srn => ("masqueradeAs", srn.toString))).toList)

example : uploadDocumentQuery none none none = [] := by decide
example :
    uploadDocumentQuery none none (some (.Account "AC_1")) =
      [("masqueradeAs", "account:AC_1")] := by decide
example : getAccountQuery none = [("masqueradeAs", "")] := by decide

/-! ## Splitting lemmas for formatted SRN strings -/

theorem data_tag_ident (tag i : String) :
    (tag ++ ":" ++ i).data = tag.data ++ ':' :: i.data := by
  rw [String.data_append, String.data_append, List.append_assoc]
  rfl

theorem splitColon_tag_ident (tag i : String) (htag : ':' ∉ tag.data)
    (hi : ':' ∉ i.data) :
    splitColon (tag ++ ":" ++ i).data = [tag.data, i.data] := by
  rw [data_tag_ident, splitColon_append _ _ htag, splitColon_no_colon _ hi]

theorem splitColon_tag_ident_suffix (tag i suf : String)
    (htag : ':' ∉ tag.data) (hi : ':' ∉ i.data) (hsuf : ':' ∉ suf.data) :
    splitColon (tag ++ ":" ++ (i ++ ":" ++ suf)).data =
      [tag.data, i.data, suf.data] := by
  rw [data_tag_ident, splitColon_append _ _ htag, data_tag_ident,
      splitColon_append _ _ hi, splitColon_no_colon _ hsuf]

theorem data_tagColon (tagc tag : String) (i : String)
    (h : tagc.data = tag.data ++ [':']) :
    (tagc ++ i).data = tag.data ++ ':' :: i.data := by
  rw [String.data_append, h, List.append_assoc]
  rfl

theorem data_pm_ach (i : String) :
    ("paymentmethod:" ++ i ++ ":ach").data =
      "paymentmethod".data ++ ':' :: (i.data ++ ':' :: "ach".data) := by
  rw [String.data_append, String.data_append, List.append_assoc]
  rfl

/-- Round-trip law restricted to colon-free identifiers: parsing the
formatted textual form of any SRN whose identifier contains no colon
reproduces the value. -/
theorem parseSrn_toString (x : SystemResourceName) (h : ':' ∉ x.ident.data) :
    parseSrn x.toString = .ok x := by
  cases x with
  | PaymentMethod i =>
    show srnFromParts ("paymentmethod:" ++ i)
        (splitColon ("paymentmethod:" ++ i).data) = .ok (.PaymentMethod i)
    have hi : ':' ∉ i.data := h
    rw [data_tagColon "paymentmethod:" "paymentmethod" i rfl,
        splitColon_append _ _ (by decide), splitColon_no_colon _ hi]
    rfl
  | AchPaymentMethod i =>
    show srnFromParts ("paymentmethod:" ++ i ++ ":ach")
        (splitColon ("paymentmethod:" ++ i ++ ":ach").data) =
      .ok (.AchPaymentMethod i)
    have hi : ':' ∉ i.data := h
    rw [data_pm_ach, splitColon_append _ _ (by decide),
        splitColon_append _ _ hi, splitColon_no_colon _ (by decide)]
    rfl
  | Email i =>
    show srnFromParts ("email:" ++ i) (splitColon ("email:" ++ i).data) =
      .ok (.Email i)
    have hi : ':' ∉ i.data := h
    rw [data_tagColon "email:" "email" i rfl, splitColon_append _ _ (by decide),
        splitColon_no_colon _ hi]
    rfl
  | CellPhone i =>
    show srnFromParts ("cellphone:" ++ i)
        (splitColon ("cellphone:" ++ i).data) = .ok (.CellPhone i)
    have hi : ':' ∉ i.data := h
    rw [data_tagColon "cellphone:" "cellphone" i rfl,
        splitColon_append _ _ (by decide), splitColon_no_colon _ hi]
    rfl
  | Bitcoin i =>
    show srnFromParts ("bitcoin:" ++ i) (splitColon ("bitcoin:" ++ i).data) =
      .ok (.Bitcoin i)
    have hi : ':' ∉ i.data := h
    rw [data_tagColon "bitcoin:" "bitcoin" i rfl,
        splitColon_append _ _ (by decide), splitColon_no_colon _ hi]
    rfl
  | Ethereum i =>
    show srnFromParts ("ethereum:" ++ i) (splitColon ("ethereum:" ++ i).data) =
      .ok (.Ethereum i)
    have hi : ':' ∉ i.data := h
    rw [data_tagColon "ethereum:" "ethereum" i rfl,
        splitColon_append _ _ (by decide), splitColon_no_colon _ hi]
    rfl
  | Avalanche i =>
    show srnFromParts ("avalanche:" ++ i)
        (splitColon ("avalanche:" ++ i).data) = .ok (.Avalanche i)
    have hi : ':' ∉ i.data := h
    rw [data_tagColon "avalanche:" "avalanche" i rfl,
        splitColon_append _ _ (by decide), splitColon_no_colon _ hi]
    rfl
  | Stellar i =>
    show srnFromParts ("stellar:" ++ i) (splitColon ("stellar:" ++ i).data) =
      .ok (.Stellar i)
    have hi : ':' ∉ i.data := h
    rw [data_tagColon "stellar:" "stellar" i rfl,
        splitColon_append _ _ (by decide), splitColon_no_colon _ hi]
    rfl
  | Algorand i =>
    show srnFromParts ("algorand:" ++ i) (splitColon ("algorand:" ++ i).data) =
      .ok (.Algorand i)
    have hi : ':' ∉ i.data := h
    rw [data_tagColon "algorand:" "algorand" i rfl,
        splitColon_append _ _ (by decide), splitColon_no_colon _ hi]
    rfl
  | Matic i =>
    show srnFromParts ("matic:" ++ i) (splitColon ("matic:" ++ i).data) =
      .ok (.Matic i)
    have hi : ':' ∉ i.data := h
    rw [data_tagColon "matic:" "matic" i rfl,
        splitColon_append _ _ (by decide), splitColon_no_colon _ hi]
    rfl
  | Flow i =>
    show srnFromParts ("flow:" ++ i) (splitColon ("flow:" ++ i).data) =
      .ok (.Flow i)
    have hi : ':' ∉ i.data := h
    rw [data_tagColon "flow:" "flow" i rfl,
        splitColon_append _ _ (by decide), splitColon_no_colon _ hi]
    rfl
  | Loopring i =>
    show srnFromParts ("loopring:" ++ i) (splitColon ("loopring:" ++ i).data) =
      .ok (.Loopring i)
    have hi : ':' ∉ i.data := h
    rw [data_tagColon "loopring:" "loopring" i rfl,
        splitColon_append _ _ (by decide), splitColon_no_colon _ hi]
    rfl
  | Account i =>
    show srnFromParts ("account:" ++ i) (splitColon ("account:" ++ i).data) =
      .ok (.Account i)
    have hi : ':' ∉ i.data := h
    rw [data_tagColon "account:" "account" i rfl,
        splitColon_append _ _ (by decide), splitColon_no_colon _ hi]
    rfl
  | User i =>
    show srnFromParts ("user:" ++ i) (splitColon ("user:" ++ i).data) =
      .ok (.User i)
    have hi : ':' ∉ i.data := h
    rw [data_tagColon "user:" "user" i rfl,
        splitColon_append _ _ (by decide), splitColon_no_colon _ hi]
    rfl
  | Wallet i =>
    show srnFromParts ("wallet:" ++ i) (splitColon ("wallet:" ++ i).data) =
      .ok (.Wallet i)
    have hi : ':' ∉ i.data := h
    rw [data_tagColon "wallet:" "wallet" i rfl,
        splitColon_append _ _ (by decide), splitColon_no_colon _ hi]
    rfl
  | Transfer i =>
    show srnFromParts ("transfer:" ++ i) (splitColon ("transfer:" ++ i).data) =
      .ok (.Transfer i)
    have hi : ':' ∉ i.data := h
    rw [data_tagColon "transfer:" "transfer" i rfl,
        splitColon_append _ _ (by decide), splitColon_no_colon _ hi]
    rfl

/-- The fifteen distinct recognized first-segment type tags of the SRN
grammar (the `paymentmethod` tag serves both the plain and the `:ach`
suffixed variants). -/
def srnTypeTags : List String :=
  ["paymentmethod", "email", "cellphone", "bitcoin", "ethereum", "avalanche",
   "stellar", "algorand", "matic", "flow", "loopring", "account", "user",
   "wallet", "transfer"]

/-- The first colon-separated segment of a string (total, since splitting
always yields at least one segment). -/
def firstSegment (v : String) : String :=
  String.mk ((splitColon v.data).headD [])

theorem mk_ne_data {a : List Char} {s : String} (h : String.mk a ≠ s) :
    a ≠ s.data := fun he => h (by rw [he])

/-- Reduction of the visitor on exactly two segments: the no-suffix arm. -/
theorem srnFromParts_two (v : String) (a b : List Char) :
    srnFromParts v [a, b] =
      (if a = "paymentmethod".data then
        .ok (.PaymentMethod (String.mk b))
      else if a = "email".data then .ok (.Email (String.mk b))
      else if a = "cellphone".data then .ok (.CellPhone (String.mk b))
      else if a = "bitcoin".data then .ok (.Bitcoin (String.mk b))
      else if a = "ethereum".data then .ok (.Ethereum (String.mk b))
      else if a = "avalanche".data then .ok (.Avalanche (String.mk b))
      else if a = "stellar".data then .ok (.Stellar (String.mk b))
      else if a = "algorand".data then .ok (.Algorand (String.mk b))
      else if a = "matic".data then .ok (.Matic (String.mk b))
      else if a = "flow".data then .ok (.Flow (String.mk b))
      else if a = "loopring".data then .ok (.Loopring (String.mk b))
      else if a = "account".data then .ok (.Account (String.mk b))
      else if a = "user".data then .ok (.User (String.mk b))
      else if a = "wallet".data then .ok (.Wallet (String.mk b))
      else if a = "transfer".data then .ok (.Transfer (String.mk b))
      else .error (.unknownVariant v srnExpectedTags)) := rfl

/-- Reduction of the visitor on three or more segments: the suffix arm. -/
theorem srnFromParts_three (v : String) (a b c : List Char)
    (l : List (List Char)) :
    srnFromParts v (a :: b :: c :: l) =
      (if a = "paymentmethod".data ∧ c = "ach".data then
        .ok (.AchPaymentMethod (String.mk b))
      else .error (.unknownVariant v srnExpectedTags)) := rfl

/-- Reduction of the visitor on exactly one segment. -/
theorem srnFromParts_one (v : String) (a : List Char) :
    srnFromParts v [a] = .error (.unknownVariant v srnExpectedTags) := rfl

theorem ite_ne_of {α : Type} {c : Prop} [Decidable c] {x y z : α}
    (hx : x ≠ z) (hy : y ≠ z) : (if c then x else y) ≠ z := by
  by_cases h : c
  · rwa [if_pos h]
  · rwa [if_neg h]

/-- On a non-empty segment list, the visitor never produces the custom
missing-type error: every arm but the unreachable one yields either a value
or an unknown-variant error. -/
theorem srnFromParts_ne_custom (v : String) (parts : List (List Char))
    (h : parts ≠ []) (msg : String) :
    srnFromParts v parts ≠ .error (.custom msg) := by
  match parts with
  | [] => exact absurd rfl h
  | [a] => rw [srnFromParts_one]; simp
  | [a, b] =>
    rw [srnFromParts_two]
    repeat' apply ite_ne_of
    all_goals simp
  | a :: b :: c :: l =>
    rw [srnFromParts_three]
    repeat' apply ite_ne_of
    all_goals simp

/-- When the first segment matches none of the recognized type tags, the
visitor falls through to the unknown-variant error carrying the whole input
and the full expected-tags list. -/
theorem srnFromParts_unknown (v : String) (a : List Char)
    (l : List (List Char)) (h : ∀ t ∈ srnTypeTags, a ≠ t.data) :
    srnFromParts v (a :: l) = .error (.unknownVariant v srnExpectedTags) := by
  have h1 : a ≠ "paymentmethod".data := h _ (by decide)
  have h2 : a ≠ "email".data := h _ (by decide)
  have h3 : a ≠ "cellphone".data := h _ (by decide)
  have h4 : a ≠ "bitcoin".data := h _ (by decide)
  have h5 : a ≠ "ethereum".data := h _ (by decide)
  have h6 : a ≠ "avalanche".data := h _ (by decide)
  have h7 : a ≠ "stellar".data := h _ (by decide)
  have h8 : a ≠ "algorand".data := h _ (by decide)
  have h9 : a ≠ "matic".data := h _ (by decide)
  have h10 : a ≠ "flow".data := h _ (by decide)
  have h11 : a ≠ "loopring".data := h _ (by decide)
  have h12 : a ≠ "account".data := h _ (by decide)
  have h13 : a ≠ "user".data := h _ (by decide)
  have h14 : a ≠ "wallet".data := h _ (by decide)
  have h15 : a ≠ "transfer".data := h _ (by decide)
  match l with
  | [] => rw [srnFromParts_one]
  | [b] =>
    rw [srnFromParts_two, if_neg h1, if_neg h2, if_neg h3, if_neg h4,
        if_neg h5, if_neg h6, if_neg h7, if_neg h8, if_neg h9, if_neg h10,
        if_neg h11, if_neg h12, if_neg h13, if_neg h14, if_neg h15]
  | b :: c :: l2 =>
    rw [srnFromParts_three, if_neg (fun hand => h1 hand.1)]

/-! ## Claim theorems: the SRN codec -/

/-- Claim C1, counterexample: the round-trip law fails as stated for a
constructible value whose identifier contains a colon — formatting
`PaymentMethod "X:ach"` and parsing it back yields `AchPaymentMethod "X"`,
not the original value. -/
theorem c1_roundtrip_counterexample :
    parseSrn (SystemResourceName.toString (.PaymentMethod "X:ach")) =
      .ok (.AchPaymentMethod "X") ∧
    parseSrn (SystemResourceName.toString (.PaymentMethod "X:ach")) ≠
      .ok (.PaymentMethod "X:ach") := by decide

/-- Claim C1, amended: for every constructible SRN whose identifier string
contains no colon, parsing the formatted textual form reproduces an equal
value. -/
theorem c1_roundtrip (x : SystemResourceName) (h : ':' ∉ x.ident.data) :
    parseSrn x.toString = .ok x :=
  parseSrn_toString x h

/-- Witness for C1 at the concrete value `Account "AC_XYZ"`. -/
theorem c1_roundtrip_witness :
    ':' ∉ (SystemResourceName.ident (.Account "AC_XYZ")).data ∧
    parseSrn (SystemResourceName.toString (.Account "AC_XYZ")) =
      .ok (.Account "AC_XYZ") :=
  ⟨by decide, c1_roundtrip (.Account "AC_XYZ") (by decide)⟩

/-- Claim C2: the missing-type branch of the visitor is unreachable.
Rust's `split(':')` always yields at least one (possibly empty) segment, so
the empty input and colon-free inputs take the unknown-variant branch, and
no input whatsoever produces the custom missing-type error. -/
theorem c2_missing_type_unreachable :
    parseSrn "" = .error (.unknownVariant "" srnExpectedTags) ∧
    parseSrn "noColonHere" =
      .error (.unknownVariant "noColonHere" srnExpectedTags) ∧
    ∀ (s msg : String), parseSrn s ≠ .error (.custom msg) :=
  ⟨by decide, by decide, fun s msg =>
    srnFromParts_ne_custom s (splitColon s.data) (splitColon_ne_nil _) msg⟩

/-- Claim C3, counterexample: the unknown-variant error produced for
`"bogus:xyz"` names the entire input string, not just the unrecognized type
segment `"bogus"`. -/
theorem c3_unknown_variant_counterexample :
    parseSrn "bogus:xyz" =
      .error (.unknownVariant "bogus:xyz" srnExpectedTags) ∧
    parseSrn "bogus:xyz" ≠
      .error (.unknownVariant "bogus" srnExpectedTags) := by decide

/-- Claim C3, amended: for every input whose first colon-separated segment
is not a recognized type tag, parsing fails with an unknown-variant error
that names the full input (which begins with the unrecognized type) and
lists the full set of sixteen valid tag patterns. -/
theorem c3_unknown_variant (v : String)
    (h : ∀ t ∈ srnTypeTags, firstSegment v ≠ t) :
    parseSrn v = .error (.unknownVariant v srnExpectedTags) := by
  cases hp : splitColon v.data with
  | nil => exact absurd hp (splitColon_ne_nil _)
  | cons a l =>
    have hfs : firstSegment v = String.mk a := by
      unfold firstSegment
      rw [hp]
      rfl
    have ha : ∀ t ∈ srnTypeTags, a ≠ t.data := by
      intro t ht
      exact mk_ne_data (by rw [← hfs]; exact h t ht)
    show srnFromParts v (splitColon v.data) = _
    rw [hp]
    exact srnFromParts_unknown v a l ha

/-- Witness for C3 at the concrete input `"bogus:xyz"`. -/
theorem c3_unknown_variant_witness :
    (∀ t ∈ srnTypeTags, firstSegment "bogus:xyz" ≠ t) ∧
    parseSrn "bogus:xyz" =
      .error (.unknownVariant "bogus:xyz" srnExpectedTags) :=
  ⟨by decide, c3_unknown_variant "bogus:xyz" (by decide)⟩

/-- Claim C6, counterexample: with an identifier that itself contains a
colon, `"paymentmethod:" ++ id` does not parse to `PaymentMethod id` — at
`id = "a:b"` the parse fails entirely. -/
theorem c6_paymentmethod_counterexample :
    parseSrn ("paymentmethod:" ++ "a:b") =
      .error (.unknownVariant "paymentmethod:a:b" srnExpectedTags) ∧
    parseSrn ("paymentmethod:" ++ "a:b") ≠ .ok (.PaymentMethod "a:b") := by
  decide

/-- Claim C6, amended: for every colon-free identifier string `id`, parsing
`"paymentmethod:" ++ id` yields `PaymentMethod id` and parsing
`"paymentmethod:" ++ id ++ ":ach"` yields `AchPaymentMethod id`; in
particular both hold at `"PA_ABC123"`. -/
theorem c6_paymentmethod :
    (∀ i : String, ':' ∉ i.data →
      parseSrn ("paymentmethod:" ++ i) = .ok (.PaymentMethod i)) ∧
    (∀ i : String, ':' ∉ i.data →
      parseSrn ("paymentmethod:" ++ i ++ ":ach") =
        .ok (.AchPaymentMethod i)) ∧
    parseSrn "paymentmethod:PA_ABC123" = .ok (.PaymentMethod "PA_ABC123") ∧
    parseSrn "paymentmethod:PA_ABC123:ach" =
      .ok (.AchPaymentMethod "PA_ABC123") :=
  ⟨fun i hi => parseSrn_toString (.PaymentMethod i) hi,
   fun i hi => parseSrn_toString (.AchPaymentMethod i) hi,
   by decide, by decide⟩

/-- Witness for C6 at the concrete identifier `"PA_W7YN28"`. -/
theorem c6_paymentmethod_witness :
    ':' ∉ ("PA_W7YN28" : String).data ∧
    parseSrn ("paymentmethod:" ++ "PA_W7YN28") =
      .ok (.PaymentMethod "PA_W7YN28") ∧
    parseSrn ("paymentmethod:" ++ "PA_W7YN28" ++ ":ach") =
      .ok (.AchPaymentMethod "PA_W7YN28") :=
  ⟨by decide, c6_paymentmethod.1 "PA_W7YN28" (by decide),
   c6_paymentmethod.2.1 "PA_W7YN28" (by decide)⟩

/-- Claim C10, counterexample: the claim fails as stated when the
identifier position itself contains a colon — at `id = "a:b"`,
`rest = "r"` the input parses to an error, not `AchPaymentMethod "a:b"`. -/
theorem c10_extra_segments_counterexample :
    parseSrn ("paymentmethod:" ++ "a:b" ++ ":ach:" ++ "r") =
      .error (.unknownVariant "paymentmethod:a:b:ach:r" srnExpectedTags) ∧
    parseSrn ("paymentmethod:" ++ "a:b" ++ ":ach:" ++ "r") ≠
      .ok (.AchPaymentMethod "a:b") := by decide

/-- Claim C10, amended: for every colon-free identifier `id` and arbitrary
trailing text `rest`, parsing `"paymentmethod:" ++ id ++ ":ach:" ++ rest`
succeeds with `AchPaymentMethod id`, silently discarding every segment after
the third; consequently formatting the parsed value does not reproduce such
an input. -/
theorem c10_extra_segments :
    (∀ (i rest : String), ':' ∉ i.data →
      parseSrn ("paymentmethod:" ++ i ++ ":ach:" ++ rest) =
        .ok (.AchPaymentMethod i)) ∧
    parseSrn "paymentmethod:PA_1:ach:extra" = .ok (.AchPaymentMethod "PA_1") ∧
    SystemResourceName.toString (.AchPaymentMethod "PA_1") ≠
      "paymentmethod:PA_1:ach:extra" := by
  refine ⟨?_, by decide, by decide⟩
  intro i rest hi
  have hdata : ("paymentmethod:" ++ i ++ ":ach:" ++ rest).data =
      "paymentmethod".data ++
        ':' :: (i.data ++ ':' :: ("ach".data ++ ':' :: rest.data)) := by
    rw [String.data_append, String.data_append, String.data_append,
        List.append_assoc, List.append_assoc]
    rfl
  show srnFromParts _
      (splitColon ("paymentmethod:" ++ i ++ ":ach:" ++ rest).data) = _
  rw [hdata, splitColon_append _ _ (by decide), splitColon_append _ _ hi,
      splitColon_append _ _ (by decide), srnFromParts_three,
      if_pos ⟨rfl, rfl⟩]

/-- Witness for C10 at the concrete identifier `"PA_2"` and trailing text
`"x:y"`. -/
theorem c10_extra_segments_witness :
    ':' ∉ ("PA_2" : String).data ∧
    parseSrn ("paymentmethod:" ++ "PA_2" ++ ":ach:" ++ "x:y") =
      .ok (.AchPaymentMethod "PA_2") :=
  ⟨by decide, c10_extra_segments.1 "PA_2" "x:y" (by decide)⟩

/-! ## Claim theorems: field-value decoding, currencies, query parameters -/

/-- Claim C4, counterexample: not every JSON object decodes to the Address
variant — an object binding a recognized address key to a number fails both
untagged candidates, so decoding fails outright. -/
theorem c4_userfield_counterexample :
    decodeUserFieldType (.obj [("street1", .num 5)]) = none := by decide

/-- Claim C4, amended: untagged user-field decoding never yields the String
variant on a JSON object (when decoding an object succeeds the result is the
Address variant), every bare JSON string yields the String variant, and the
spec's example object decodes to the expected Address value. -/
theorem c4_userfield :
    (∀ (kvs : List (String × Json)) (r : UserFieldType),
      decodeUserFieldType (.obj kvs) = some r → ∃ a, r = .address a) ∧
    (∀ s : String,
      decodeUserFieldType (.str s) = some (.string (some s))) ∧
    decodeUserFieldType
        (.obj [("street1", .str "123 Sesame St"),
               ("city", .str "New York City")]) =
      some (.address (some ⟨some "123 Sesame St", none, some "New York City",
        none, none, none⟩)) := by
  refine ⟨?_, fun s => rfl, by decide⟩
  intro kvs r h
  have h2 : (decodeOptAddress (.obj kvs)).map UserFieldType.address =
      some r := h
  cases hda : decodeOptAddress (.obj kvs) with
  | none => rw [hda] at h2; cases h2
  | some a =>
    rw [hda] at h2
    exact ⟨a, (Option.some.inj h2).symm⟩

/-- Witness for C4 at the concrete object with one city field and the bare
string `"John"`. -/
theorem c4_userfield_witness :
    (∃ a, UserFieldType.address
        (some ⟨none, none, some "NYC", none, none, none⟩) = .address a) ∧
    decodeUserFieldType (.str "John") = some (.string (some "John")) :=
  ⟨c4_userfield.1 [("city", .str "NYC")]
      (.address (some ⟨none, none, some "NYC", none, none, none⟩))
      (by decide),
   c4_userfield.2.1 "John"⟩

/-- Claim C5, counterexample: `upload_document` with no masquerade omits the
masqueradeAs parameter entirely instead of sending an empty value. -/
theorem c5_masquerade_counterexample :
    uploadDocumentQuery none none none = [] ∧
    ("masqueradeAs", "") ∉ uploadDocumentQuery none none none := by decide

/-- Claim C5, amended: every masquerade-accepting operation except
`upload_document` sends `masqueradeAs` with the formatted SRN when present
and with the empty string when absent; `upload_document` sends the formatted
SRN when present but omits the parameter when absent. -/
theorem c5_masquerade :
    (∀ (srn : SystemResourceName) (offset limit : Nat) (scope : UserScope)
        (dt : Option DocumentType) (dst : Option DocumentSubType),
      ("masqueradeAs", srn.toString) ∈ getAccountQuery (some srn) ∧
      ("masqueradeAs", srn.toString) ∈ updateAccountQuery (some srn) ∧
      ("masqueradeAs", srn.toString) ∈
        createAchPaymentMethodQuery (some srn) ∧
      ("masqueradeAs", srn.toString) ∈
        getPaymentMethodsQuery (some srn) offset limit ∧
      ("masqueradeAs", srn.toString) ∈ createTransferQuery (some srn) ∧
      ("masqueradeAs", srn.toString) ∈ getTransferQuery (some srn) ∧
      ("masqueradeAs", srn.toString) ∈ getUserQuery (some srn) scope ∧
      ("masqueradeAs", srn.toString) ∈ updateUserQuery (some srn) ∧
      ("masqueradeAs", srn.toString) ∈ uploadDocumentQuery dt dst (some srn)) ∧
    (∀ (offset limit : Nat) (scope : UserScope),
      ("masqueradeAs", "") ∈ getAccountQuery none ∧
      ("masqueradeAs", "") ∈ updateAccountQuery none ∧
      ("masqueradeAs", "") ∈ createAchPaymentMethodQuery none ∧
      ("masqueradeAs", "") ∈ getPaymentMethodsQuery none offset limit ∧
      ("masqueradeAs", "") ∈ createTransferQuery none ∧
      ("masqueradeAs", "") ∈ getTransferQuery none ∧
      ("masqueradeAs", "") ∈ getUserQuery none scope ∧
      ("masqueradeAs", "") ∈ updateUserQuery none) ∧
    (∀ (dt : Option DocumentType) (dst : Option DocumentSubType)
        (p : String × String),
      p ∈ uploadDocumentQuery dt dst none → p.1 ≠ "masqueradeAs") := by
  refine ⟨?_, ?_, ?_⟩
  · intro srn offset limit scope dt dst
    refine ⟨?_, ?_, ?_, ?_, ?_, ?_, ?_, ?_, ?_⟩ <;>
      simp [getAccountQuery, updateAccountQuery, createAchPaymentMethodQuery,
        getPaymentMethodsQuery, createTransferQuery, getTransferQuery,
        getUserQuery, updateUserQuery, uploadDocumentQuery, masqueradeParam]
  · intro offset limit scope
    refine ⟨?_, ?_, ?_, ?_, ?_, ?_, ?_, ?_⟩ <;>
      simp [getAccountQuery, updateAccountQuery, createAchPaymentMethodQuery,
        getPaymentMethodsQuery, createTransferQuery, getTransferQuery,
        getUserQuery, updateUserQuery, masqueradeParam]
  · intro dt dst p hp
    rcases dt with _ | d1 <;> rcases dst with _ | d2 <;>
      simp only [uploadDocumentQuery, Option.map_none', Option.map_some',
        Option.toList_none, Option.toList_some, List.append_nil,
        List.nil_append, List.mem_append, List.mem_singleton,
        List.not_mem_nil] at hp
    · rw [hp]
      exact fun hc =>
        absurd hc (show "documentSubType" ≠ "masqueradeAs" by decide)
    · rw [hp]
      exact fun hc =>
        absurd hc (show "documentType" ≠ "masqueradeAs" by decide)
    · rcases hp with hp | hp <;> rw [hp]
      · exact fun hc =>
          absurd hc (show "documentType" ≠ "masqueradeAs" by decide)
      · exact fun hc =>
          absurd hc (show "documentSubType" ≠ "masqueradeAs" by decide)

/-- Claim C7: decoding a profile-field object whose fieldType discriminator
is ADDRESS and whose value payload is JSON null succeeds with the Address
variant holding None. -/
theorem c7_address_null (kvs : List (String × Json))
    (h1 : lookupField kvs "fieldType" = some (.str "ADDRESS"))
    (h2 : lookupField kvs "value" = some .null) :
    decodeProfileFieldType (.obj kvs) = .ok (.address none) := by
  simp only [decodeProfileFieldType, h1, h2]
  rfl

/-- Witness for C7 at the canonical two-field object. -/
theorem c7_address_null_witness :
    decodeProfileFieldType
        (.obj [("fieldType", .str "ADDRESS"), ("value", .null)]) =
      .ok (.address none) :=
  c7_address_null [("fieldType", .str "ADDRESS"), ("value", .null)] rfl rfl

/-- Claim C8: decoding a profile-field object whose fieldType discriminator
token is not one of the seven recognized kinds fails with an
unknown-variant decode error, never a default value. -/
theorem c8_unknown_fieldtype (kvs : List (String × Json)) (tag : String)
    (h1 : lookupField kvs "fieldType" = some (.str tag))
    (h2 : tag ∉ profileFieldTypeTags) :
    decodeProfileFieldType (.obj kvs) =
      .error (.unknownVariant tag profileFieldTypeTags) := by
  simp only [decodeProfileFieldType, h1]
  rw [if_neg h2]

/-- Witness for C8 at the concrete discriminator `"BOGUS"`. -/
theorem c8_unknown_fieldtype_witness :
    decodeProfileFieldType
        (.obj [("fieldType", .str "BOGUS"), ("value", .null)]) =
      .error (.unknownVariant "BOGUS" profileFieldTypeTags) :=
  c8_unknown_fieldtype [("fieldType", .str "BOGUS"), ("value", .null)]
    "BOGUS" rfl (by decide)

/-- Claim C9: every token outside the named currency table decodes to the
Other fallback, and any two unrecognized tokens decode to equal values. -/
theorem c9_currency_other (s t : String)
    (hs : s ∉ currencyTokenTable.map Prod.fst)
    (ht : t ∉ currencyTokenTable.map Prod.fst) :
    currencyFromToken s = .Other ∧
    currencyFromToken s = currencyFromToken t := by
  have key : ∀ u : String, u ∉ currencyTokenTable.map Prod.fst →
      currencyFromToken u = .Other := by
    intro u hu
    unfold currencyFromToken
    have hfind : currencyTokenTable.find? (fun p => p.1 = u) = none := by
      rw [List.find?_eq_none]
      intro q hq
      simp only [decide_eq_true_eq]
      intro he
      exact hu (he ▸ List.mem_map_of_mem Prod.fst hq)
    rw [hfind]
    rfl
  exact ⟨key s hs, (key s hs).trans (key t ht).symm⟩

/-- Witness for C9 at the concrete unrecognized tokens `"XYZ"` and
`"ABC"`. -/
theorem c9_currency_other_witness :
    "XYZ" ∉ currencyTokenTable.map Prod.fst ∧
    currencyFromToken "XYZ" = .Other ∧
    currencyFromToken "XYZ" = currencyFromToken "ABC" :=
  ⟨by decide, (c9_currency_other "XYZ" "ABC" (by decide) (by decide)).1,
   (c9_currency_other "XYZ" "ABC" (by decide) (by decide)).2⟩

end Wyre
